import Mathlib

/-!
Shallow embedding of the sPot repository: four Python scripts that sample
still frames from a video source (a managed Kinesis video stream, a local
camera device, or a watched directory) and offload them to S3.

Modeling conventions:
* Pure string manipulation (S3 key construction, filename construction) is
  translated directly.
* Side effects (logging, file writes, S3 calls, thread spawns, sleeps,
  buffer unmaps) are recorded in an explicit trace of type List Ev, in the
  order the Python statements execute them.
* The local filesystem is a list of existing file paths; os.remove is
  List.erase, a file write appends the path.
* Fallible external calls (S3 upload, os.remove, device read, buffer map)
  are driven by explicit boolean oracles packaged in world structures; a
  false oracle value means the Python call raises (or returns a failure
  flag, matching the call in question).
* Python set iteration order is unspecified (hash table order with
  randomized string hashing); it is modeled by an explicit permutation
  parameter applied where the code converts the set to a list.
-/

/-- Observable effects emitted by the modeled code, in program order. -/
inductive Ev where
  | logError (msg : String)
  | logInfo (msg : String)
  | logDebug (msg : String)
  | writeImage (path : String)
  | spawnUpload (path ts : String)
  | s3Upload (path bucket key ctype : String)
  | removeFile (path : String)
  | rmdirEv (dir : String)
  | sleepFor (secs : ℚ)
  | unmap
  | captureRead
  | putFrame
  | terminated
  deriving DecidableEq

/-- True exactly on buffer-unmap events. -/
def isUnmap : Ev → Bool
  | .unmap => true
  | _ => false

/-- True exactly on thread-spawn (fire-and-forget upload) events. -/
def isSpawnUpload : Ev → Bool
  | .spawnUpload _ _ => true
  | _ => false

/-- True exactly on inline (blocking) S3 upload-call events. -/
def isS3Upload : Ev → Bool
  | .s3Upload _ _ _ _ => true
  | _ => false

/-- True exactly on error-log events. -/
def isLogError : Ev → Bool
  | .logError _ => true
  | _ => false

/-- True exactly on device-read events. -/
def isCaptureRead : Ev → Bool
  | .captureRead => true
  | _ => false

/-- True exactly on the terminal-state marker. -/
def isTerminated : Ev → Bool
  | .terminated => true
  | _ => false

/-- Keys of the S3 upload calls occurring in a trace. -/
def uploadKeys (tr : List Ev) : List String :=
  tr.filterMap fun e =>
    match e with
    | .s3Upload _ _ k _ => some k
    | _ => none

/-- Content types of the S3 upload calls occurring in a trace. -/
def uploadCtypes (tr : List Ev) : List String :=
  tr.filterMap fun e =>
    match e with
    | .s3Upload _ _ _ c => some c
    | _ => none

/-- Outcome oracle for one S3 offload attempt: whether the durable write
succeeds and whether the subsequent local os.remove succeeds. -/
structure S3World where
  uploadOk : Bool
  removeOk : Bool

/-! ## s3-uploader.py (watch mode key helpers) -/

/-- Python str.rstrip applied with the slash character: drop all trailing
slashes. -/
def rstripSlash (s : String) : String :=
  String.mk ((s.data.reverse.dropWhile (fun c => c = '/')).reverse)

/-- The prefix normalization both uploader constructors perform:
s3_prefix.rstrip of slashes, then a slash appended. -/
def normPfx (p : String) : String :=
  rstripSlash p ++ "/"

/-- Python os.path.basename for slash-separated paths: the longest suffix
containing no slash. -/
def os_path_basename (p : String) : String :=
  String.mk ((p.data.reverse.takeWhile (fun c => c ≠ '/')).reverse)

/-- ImageUploader._is_image_file from s3-uploader.py: lowercase the path
and test the three recognized extensions (Python str.lower and
str.endswith, realized on the character list). -/
def _is_image_file (file_path : String) : Bool :=
  let l := file_path.data.map Char.toLower
  ".jpg".data.isSuffixOf l || ".jpeg".data.isSuffixOf l
    || ".png".data.isSuffixOf l

/-- The S3 key built by ImageUploader._upload_file:
prefix, then the fixed subpath sPotVideoAnalysis, then timestamp,
underscore, original basename. -/
def watch_s3_key (pfx ts filename : String) : String :=
  pfx ++ "sPotVideoAnalysis/" ++ ts ++ "_" ++ filename

/-- Configuration of ImageUploader (s3-uploader.py). The s3_pfx field holds
the already-normalized prefix; delete_after_upload is False when the
process was started with the keep-files flag. -/
structure UploaderCfg where
  watch_dir : String
  s3_bucket : String
  s3_pfx : String
  delete_after_upload : Bool

/-- ImageUploader._upload_file from s3-uploader.py. Returns the filesystem
after the call and the trace of effects. The whole body is wrapped in a
try/except in the source, so the model is total: every failure turns into
a logError event and the function returns normally. Note the content type
is the string literal image/jpeg in the source, independent of the file. -/
def _upload_file (cfg : UploaderCfg) (w : S3World) (fs : List String)
    (file_path ts : String) : List String × List Ev :=
  let filename := os_path_basename file_path
  let key := watch_s3_key cfg.s3_pfx ts filename
  let attempt := Ev.s3Upload file_path cfg.s3_bucket key "image/jpeg"
  if w.uploadOk = false then
    (fs, [attempt, .logError ("S3 upload error: " ++ file_path)])
  else if cfg.delete_after_upload = false then
    (fs, [attempt, .logInfo ("Uploaded " ++ filename)])
  else if w.removeOk = false then
    (fs, [attempt, .logInfo ("Uploaded " ++ filename),
          .logError ("Error uploading " ++ file_path)])
  else
    (fs.erase file_path,
     [attempt, .logInfo ("Uploaded " ++ filename), .removeFile file_path,
      .logDebug ("Deleted local file " ++ file_path)])

/-- A watchdog file-creation event as delivered to on_created. -/
structure WatchEvent where
  src_path : String
  is_directory : Bool

/-- ImageUploader.on_created from s3-uploader.py. State: the processed_files
collection (kept here in insertion order as ghost information) and the
filesystem. The source stores processed_files in a Python set, whose
iteration order at the eviction site list(self.processed_files) is
unspecified; the parameter pi supplies that order and is meant to range
over permutation-producing functions. The eviction keeps the last 500
elements of the iteration-ordered list once the size exceeds 1000. -/
def on_created (pi : List String → List String) (cfg : UploaderCfg)
    (w : S3World) (processed : List String) (fs : List String)
    (ev : WatchEvent) (ts : String) :
    List String × List String × List Ev :=
  if ev.is_directory = true then (processed, fs, [])
  else if _is_image_file ev.src_path = false then (processed, fs, [])
  else if ev.src_path ∈ processed then (processed, fs, [])
  else
    let up := _upload_file cfg w fs ev.src_path ts
    let tr := Ev.sleepFor (1/2) :: up.2
    let processed1 := processed ++ [ev.src_path]
    if processed1.length > 1000 then
      let listed := pi processed1
      (listed.drop (listed.length - 500), up.1, tr)
    else (processed1, up.1, tr)

/-- Folding on_created over a sequence of watch events, from a given
(processed_files, filesystem) state. -/
def runWatch (pi : List String → List String) (cfg : UploaderCfg)
    (w : S3World) (ts : String) :
    List WatchEvent → List String × List String → List String × List String
  | [], st => st
  | e :: es, st =>
    let r := on_created pi cfg w st.1 st.2 e ts
    runWatch pi cfg w ts es (r.1, r.2.1)

/-! ## kvs-to-s3.py (managed-stream mode) -/

/-- Configuration of KVSToS3ImageExtractor, read from environment
variables in the source. -/
structure KvsCfg where
  kvs_stream_name : String
  s3_bucket_name : String
  image_format : String
  image_quality : Nat
  temp_dir : String
  s3_pfx : String

/-- The status an appsink new-sample callback returns to the driving
GStreamer pipeline: ok means continue, error is treated by the pipeline
as a flow error (pipeline-fatal: the bus posts an error and the error
handler quits the main loop). -/
inductive FlowReturn where
  | ok
  | error
  deriving DecidableEq

/-- The inputs that determine one invocation of on_new_sample: whether
pull-sample returned a sample, whether buffer.map succeeded, whether the
frame-processing try block raises (encode or disk failure), and the
wall-clock timestamp string taken at the top of the try block. -/
structure SampleInput where
  hasSample : Bool
  mapOk : Bool
  procRaises : Bool
  ts : String

/-- The S3 key built by KVSToS3ImageExtractor.upload_to_s3:
prefix, stream name, slash, timestamp, dot, configured format. -/
def kvs_s3_key (pfx stream ts fmt : String) : String :=
  pfx ++ stream ++ "/" ++ ts ++ "." ++ fmt

/-- The content type sent by kvs-to-s3.py and test.py: the string image/
followed by the configured format. -/
def kvs_content_type (fmt : String) : String :=
  "image/" ++ fmt

/-- KVSToS3ImageExtractor.on_new_sample from kvs-to-s3.py. Branches, in
source order: no sample returns error; a failed buffer.map logs one
diagnostic, unmaps, and returns error; an exception inside the try block
logs, unmaps (finally), and returns ok; otherwise the frame is written,
the upload is spawned on a separate thread (fire and forget), the
extraction is logged, the buffer is unmapped (finally) and ok is
returned. The callback never performs the S3 upload inline. -/
def on_new_sample (cfg : KvsCfg) (inp : SampleInput) : FlowReturn × List Ev :=
  if inp.hasSample = false then (.error, [])
  else if inp.mapOk = false then
    (.error, [.logError "Failed to map buffer", .unmap])
  else if inp.procRaises = true then
    (.ok, [.logError "Error processing frame", .unmap])
  else
    let filename := cfg.temp_dir ++ "/" ++ inp.ts ++ "." ++ cfg.image_format
    (.ok,
     [.writeImage filename,
      .spawnUpload filename inp.ts,
      .logInfo ("Extracted image: " ++ inp.ts ++ "." ++ cfg.image_format),
      .unmap])

/-- KVSToS3ImageExtractor.upload_to_s3 from kvs-to-s3.py: the body of the
spawned upload thread. The whole body is one try/except, so the model is
total; on success the local file is deleted, on any failure (upload or
remove) the failure is logged once and the filesystem is left unchanged.
There is no retry and nothing is returned to the sampling path. -/
def upload_to_s3 (cfg : KvsCfg) (w : S3World) (fs : List String)
    (filepath ts : String) : List String × List Ev :=
  let key := kvs_s3_key cfg.s3_pfx cfg.kvs_stream_name ts cfg.image_format
  let attempt := Ev.s3Upload filepath cfg.s3_bucket_name key
    (kvs_content_type cfg.image_format)
  if w.uploadOk = false then
    (fs, [attempt, .logError "Failed to upload to S3"])
  else if w.removeOk = false then
    (fs, [attempt, .logInfo ("Uploaded to S3: " ++ key),
          .logError "Failed to upload to S3"])
  else
    (fs.erase filepath,
     [attempt, .logInfo ("Uploaded to S3: " ++ key), .removeFile filepath])

/-- Oracle for the shutdown sweep: whether os.remove succeeds per file and
whether os.rmdir succeeds. -/
structure CleanupWorld where
  removeOk : String → Bool
  rmdirOk : Bool

/-- The try-block of KVSToS3ImageExtractor.cleanup: remove each listed
file in order, then remove the directory. The first failing call raises:
the result is an error carrying the files not yet removed (including the
failing one) and the trace so far. -/
def sweep (w : CleanupWorld) (dir : String) :
    List String → Except (List String × List Ev) (List Ev)
  | [] =>
    if w.rmdirOk = true then .ok [.rmdirEv dir]
    else .error ([], [])
  | f :: rest =>
    if w.removeOk f = true then
      match sweep w dir rest with
      | .ok tr => .ok (.removeFile f :: tr)
      | .error r => .error (r.1, .removeFile f :: r.2)
    else .error (f :: rest, [])

/-- KVSToS3ImageExtractor.cleanup from kvs-to-s3.py: logs, runs the sweep
inside try/except, and on any sweep failure logs once and returns
normally. Returns the files still present, whether the scratch directory
was removed, and the trace. -/
def cleanup (w : CleanupWorld) (dir : String) (files : List String) :
    List String × Bool × List Ev :=
  match sweep w dir files with
  | .ok tr => ([], true, .logInfo "Cleaning up resources" :: tr)
  | .error r =>
    (r.1, false,
     (Ev.logInfo "Cleaning up resources" :: r.2) ++
       [.logError "Failed to clean up temporary directory"])

/-- The tail of KVSToS3ImageExtractor.start: the finally block runs
cleanup exactly once and the process then reaches its terminal state. -/
def shutdown (w : CleanupWorld) (dir : String) (files : List String) :
    List Ev :=
  (cleanup w dir files).2.2 ++ [.terminated]

/-! ## test.py (device-capture directly to S3) -/

/-- Configuration of WebcamToS3 (test.py); pfx holds the normalized
prefix, interval the capture cadence in seconds. -/
structure WebcamCfg where
  bucket_name : String
  pfx : String
  interval : ℚ
  format : String
  quality : Nat

/-- Oracle for one iteration of the device-capture loop: whether
cap.read delivers a frame, the upload and remove outcomes, the timestamp
string, and the wall-clock time the capture-encode-dispatch work of this
cycle consumes (ghost data: the source never measures it). -/
structure CaptureWorld where
  readOk : Bool
  uploadOk : Bool
  removeOk : Bool
  ts : String
  workTime : ℚ

/-- The S3 key built by WebcamToS3.capture_and_upload: prefix, the fixed
subpath sPotVideoAnalysis, then the staged filename (timestamp dot
format). No timestamp-underscore component is prepended. -/
def webcam_s3_key (pfx filename : String) : String :=
  pfx ++ "sPotVideoAnalysis/" ++ filename

/-- WebcamToS3.capture_and_upload from test.py. A failed device read logs
and returns False (the loop then continues). Otherwise the frame is
written to /tmp and uploaded inline: the S3 call happens synchronously on
the sampling path and the returned boolean depends on its outcome. On
upload success the temporary file is removed; on failure it is kept and
the error logged. -/
def capture_and_upload (cfg : WebcamCfg) (w : CaptureWorld)
    (fs : List String) : Bool × List String × List Ev :=
  if w.readOk = false then
    (false, fs, [.captureRead, .logError "Failed to capture frame"])
  else
    let filename := w.ts ++ "." ++ cfg.format
    let temp_path := "/tmp/" ++ filename
    let fs1 := fs ++ [temp_path]
    let key := webcam_s3_key cfg.pfx filename
    let attempt := Ev.s3Upload temp_path cfg.bucket_name key
      (kvs_content_type cfg.format)
    if w.uploadOk = false then
      (false, fs1,
       [.captureRead, .writeImage temp_path, attempt,
        .logError "Error uploading to S3"])
    else if w.removeOk = false then
      (false, fs1,
       [.captureRead, .writeImage temp_path, attempt,
        .logInfo ("Uploaded " ++ filename),
        .logError "Error uploading to S3"])
    else
      (true, fs1.erase temp_path,
       [.captureRead, .writeImage temp_path, attempt,
        .logInfo ("Uploaded " ++ filename), .removeFile temp_path])

/-- WebcamToS3.start_capture loop body over a finite schedule of
iterations: each iteration runs capture_and_upload and then sleeps the
configured interval unconditionally (the source calls
time.sleep of self.interval with no elapsed-time compensation). -/
def run_capture_loop (cfg : WebcamCfg) :
    List CaptureWorld → List String → List String × List Ev
  | [], fs => (fs, [])
  | w :: ws, fs =>
    let r := capture_and_upload cfg w fs
    let rest := run_capture_loop cfg ws r.2.1
    (rest.1, r.2.2 ++ [Ev.sleepFor cfg.interval] ++ rest.2)

/-! ## webcam-to-kvs.py (device-capture to the managed stream) -/

/-- The sleep issued at the bottom of WebcamToKVS.start_streaming:
max of 0 and (1/fps minus (now minus start_time)), where start_time is the
start of the current five-second FPS-measurement window, not the start of
the current cycle. -/
def streaming_sleep (fps now windowStart : ℚ) : ℚ :=
  max 0 (1 / fps - (now - windowStart))

/-- WebcamToKVS.start_streaming capture loop over a finite schedule of
device-read outcomes. A successful read encodes and puts one frame and
continues; a failed read logs an error and breaks out of the loop, ending
the stream (the remaining scheduled iterations never run). -/
def run_streaming_loop : List Bool → List Ev
  | [] => []
  | r :: rest =>
    if r = true then Ev.captureRead :: Ev.putFrame :: run_streaming_loop rest
    else [Ev.captureRead, Ev.logError "Failed to capture frame from webcam"]

/-! ## Concrete fixtures used by witnesses and counterexamples -/

/-- A concrete managed-stream configuration. -/
def kvsCfg0 : KvsCfg :=
  ⟨"cam1", "bucket", "jpg", 85, "/tmp/kvs_images_0", "frames/"⟩

/-- A concrete watch-mode configuration with deletion enabled (default). -/
def uCfg0 : UploaderCfg := ⟨"/tmp", "bucket", "uploads/images/temp/", true⟩

/-- The watch-mode configuration produced by the keep-files flag:
delete_after_upload is False. -/
def uCfgKeep : UploaderCfg := ⟨"/tmp", "bucket", "uploads/images/temp/", false⟩

/-- A concrete device-capture configuration with a one-second interval. -/
def wCfg0 : WebcamCfg := ⟨"bucket", "uploads/", 1, "jpg", 85⟩

/-- An S3 world where both the upload and the local remove succeed. -/
def s3ok : S3World := ⟨true, true⟩

/-- An S3 world where the durable write fails. -/
def s3fail : S3World := ⟨false, true⟩

/-! ## Claim C2 -/

/-- Claim C2, counterexample. The claim states that an unmappable buffer
in the managed-stream per-frame callback is not treated as pipeline-fatal
and the pipeline continues. In the source (kvs-to-s3.py lines 102 to 106)
the callback logs one diagnostic and then returns Gst.FlowReturn.ERROR,
the flow status that aborts the driving pipeline (the bus then posts an
error and on_error quits the main loop), exactly as for a missing sample.
At the concrete input below (sample present, map fails) the callback
returns the error status, not the continue status. -/
theorem claim_C2_counterexample :
    (on_new_sample kvsCfg0 ⟨true, false, false, "20240101_120000_000000"⟩).1
      = FlowReturn.error ∧
    (on_new_sample kvsCfg0
        ⟨true, false, false, "20240101_120000_000000"⟩).2.countP isLogError
      = 1 := by
  decide

/-- Claim C2 as amended: when the buffer cannot be mapped the frame is
dropped with exactly one logged diagnostic and an unmap call, but the
callback returns the error status to the driving pipeline (treated as
pipeline-fatal); only an exception raised while processing a successfully
mapped frame is recoverable (the callback then returns ok). -/
theorem claim_C2_amended (cfg : KvsCfg) (ts : String) :
    on_new_sample cfg ⟨true, false, false, ts⟩
      = (FlowReturn.error, [.logError "Failed to map buffer", .unmap]) ∧
    (on_new_sample cfg ⟨true, true, true, ts⟩).1 = FlowReturn.ok :=
  ⟨rfl, rfl⟩

/-! ## Claim C10 -/

/-- Claim C10: whenever the managed-stream callback obtains a sample (and
hence a buffer), buffer.unmap is invoked exactly once before returning,
on every exit path: the map-failure path unmaps the never-mapped buffer
explicitly, and both the exception path and the success path unmap in the
finally block. -/
theorem claim_C10_theorem (cfg : KvsCfg) (inp : SampleInput)
    (h : inp.hasSample = true) :
    (on_new_sample cfg inp).2.countP isUnmap = 1 := by
  obtain ⟨hs, mo, pr, ts⟩ := inp
  cases h
  cases mo <;> cases pr <;>
    simp [on_new_sample, List.countP_cons, isUnmap]

/-- Claim C10, witness: the map-failure path at a concrete input performs
exactly one unmap. -/
theorem claim_C10_witness :
    (on_new_sample kvsCfg0 ⟨true, false, false, "t"⟩).2.countP isUnmap = 1 :=
  claim_C10_theorem kvsCfg0 ⟨true, false, false, "t"⟩ rfl

/-! ## Claim C4 -/

/-- Claim C4, counterexample. The claim states that watch and device-local
modes both build the key as prefix, fixed subpath, slash, timestamp,
underscore, original filename. In device-local mode (test.py lines 75 to
91) the key is prefix, fixed subpath, slash, then just the staged
filename (timestamp dot extension): no timestamp-underscore component is
prepended. At the concrete input below the key the code sends differs
from the key the claim prescribes. -/
theorem claim_C4_counterexample :
    Ev.s3Upload "/tmp/20240101_120000_000000.jpg" "bucket"
        "uploads/sPotVideoAnalysis/20240101_120000_000000.jpg" "image/jpg"
      ∈ (capture_and_upload wCfg0
          ⟨true, true, true, "20240101_120000_000000", 0⟩ []).2.2 ∧
    "uploads/sPotVideoAnalysis/20240101_120000_000000.jpg"
      ≠ "uploads/sPotVideoAnalysis/20240101_120000_000000_20240101_120000_000000.jpg" := by
  decide

/-- Claim C4 as amended: the stream-mode key is exactly prefix, identifier,
slash, timestamp, dot, extension (the literal example yields
frames/cam1/20240101_120000_000000.jpg); the watch-mode key is prefix,
the fixed subpath sPotVideoAnalysis, slash, timestamp, underscore,
original basename; the device-local key is prefix, the fixed subpath,
slash, timestamp, dot, extension, with no underscore-filename component. -/
theorem claim_C4_amended :
    kvs_s3_key "frames/" "cam1" "20240101_120000_000000" "jpg"
      = "frames/cam1/20240101_120000_000000.jpg" ∧
    (∀ (cfg : KvsCfg) (w : S3World) (fs : List String) (fp ts : String),
      uploadKeys (upload_to_s3 cfg w fs fp ts).2
        = [cfg.s3_pfx ++ cfg.kvs_stream_name ++ "/" ++ ts ++ "."
            ++ cfg.image_format]) ∧
    (∀ (cfg : UploaderCfg) (w : S3World) (fs : List String) (fp ts : String),
      uploadKeys (_upload_file cfg w fs fp ts).2
        = [cfg.s3_pfx ++ "sPotVideoAnalysis/" ++ ts ++ "_"
            ++ os_path_basename fp]) ∧
    (∀ (cfg : WebcamCfg) (w : CaptureWorld) (fs : List String),
      w.readOk = true →
      uploadKeys (capture_and_upload cfg w fs).2.2
        = [cfg.pfx ++ "sPotVideoAnalysis/" ++ (w.ts ++ "." ++ cfg.format)]) := by
  refine ⟨rfl, ?_, ?_, ?_⟩
  · intro cfg w fs fp ts
    obtain ⟨u, r⟩ := w
    cases u <;> cases r <;> rfl
  · intro cfg w fs fp ts
    obtain ⟨u, r⟩ := w
    cases u <;> cases r <;>
      cases hd : cfg.delete_after_upload <;>
        simp [_upload_file, uploadKeys, watch_s3_key, hd]
  · intro cfg w fs h
    obtain ⟨ro, uo, rm, ts, wt⟩ := w
    cases h
    cases uo <;> cases rm <;> rfl

/-- Claim C4, witness: the device-local branch at a concrete input. -/
theorem claim_C4_witness :
    uploadKeys (capture_and_upload wCfg0 ⟨true, true, true, "t", 0⟩ []).2.2
      = [wCfg0.pfx ++ "sPotVideoAnalysis/" ++ ("t" ++ "." ++ wCfg0.format)] :=
  claim_C4_amended.2.2.2 wCfg0 ⟨true, true, true, "t", 0⟩ [] rfl

/-! ## Claim C7 -/

/-- Claim C7, counterexample. The claim states that in every ingestion
mode the content type is derived from the configured image format, never
a fixed constant. In watch mode (s3-uploader.py line 87) the content type
is the string literal image/jpeg for every upload: below, a recognized
png image file is uploaded with content type image/jpeg. -/
theorem claim_C7_counterexample :
    uploadCtypes (_upload_file uCfg0 s3ok ["/tmp/x.png"] "/tmp/x.png" "t").2
      = ["image/jpeg"] ∧
    _is_image_file "/tmp/x.png" = true ∧
    "image/jpeg" ≠ "image/png" := by
  decide

/-- Claim C7 as amended: the managed-stream and device-capture modes send
content type image/ followed by the configured format; the watch mode
always sends the constant image/jpeg, independent of configuration and of
the uploaded file. -/
theorem claim_C7_amended :
    (∀ (cfg : KvsCfg) (w : S3World) (fs : List String) (fp ts : String),
      uploadCtypes (upload_to_s3 cfg w fs fp ts).2
        = ["image/" ++ cfg.image_format]) ∧
    (∀ (cfg : WebcamCfg) (w : CaptureWorld) (fs : List String),
      w.readOk = true →
      uploadCtypes (capture_and_upload cfg w fs).2.2
        = ["image/" ++ cfg.format]) ∧
    (∀ (cfg : UploaderCfg) (w : S3World) (fs : List String) (fp ts : String),
      uploadCtypes (_upload_file cfg w fs fp ts).2 = ["image/jpeg"]) := by
  refine ⟨?_, ?_, ?_⟩
  · intro cfg w fs fp ts
    obtain ⟨u, r⟩ := w
    cases u <;> cases r <;> rfl
  · intro cfg w fs h
    obtain ⟨ro, uo, rm, ts, wt⟩ := w
    cases h
    cases uo <;> cases rm <;> rfl
  · intro cfg w fs fp ts
    obtain ⟨u, r⟩ := w
    cases u <;> cases r <;>
      cases hd : cfg.delete_after_upload <;>
        simp [_upload_file, uploadCtypes, hd]

/-- Claim C7, witness: the device-capture branch with a png configuration
sends content type image/png. -/
theorem claim_C7_witness :
    uploadCtypes (capture_and_upload ⟨"bucket", "uploads/", 1, "png", 85⟩
        ⟨true, true, true, "t", 0⟩ []).2.2 = ["image/" ++ "png"] :=
  claim_C7_amended.2.1 ⟨"bucket", "uploads/", 1, "png", 85⟩
    ⟨true, true, true, "t", 0⟩ [] rfl

/-! ## Claim C6 -/

/-- Claim C6, counterexample. The claim states that in device-capture mode
each offload runs as an independent concurrent unit that the sampling
path fires and never awaits. In test.py (lines 88 to 109) the upload is
performed synchronously inline on the sampling path: the call below runs
one blocking S3 upload, spawns no thread, and the value returned to the
sampling loop depends on the upload outcome (true on success, false on
failure), so the sampling path awaits the durable write. -/
theorem claim_C6_counterexample :
    (capture_and_upload wCfg0 ⟨true, true, true, "t", 0⟩ []).1 = true ∧
    (capture_and_upload wCfg0 ⟨true, false, true, "t", 0⟩ []).1 = false ∧
    (capture_and_upload wCfg0
        ⟨true, true, true, "t", 0⟩ []).2.2.countP isS3Upload = 1 ∧
    (capture_and_upload wCfg0
        ⟨true, true, true, "t", 0⟩ []).2.2.countP isSpawnUpload = 0 := by
  decide

/-- Claim C6 as amended: only the managed-stream mode offloads each staged
artifact on an independent, never-awaited thread (the callback spawns the
upload, performs no inline S3 call, and returns ok immediately); the
device-capture mode performs the upload synchronously inline on the
sampling path before the next cadence tick. -/
theorem claim_C6_amended :
    (∀ (cfg : KvsCfg) (inp : SampleInput),
      inp.hasSample = true → inp.mapOk = true → inp.procRaises = false →
      (on_new_sample cfg inp).2.countP isSpawnUpload = 1 ∧
      (on_new_sample cfg inp).2.countP isS3Upload = 0 ∧
      (on_new_sample cfg inp).1 = FlowReturn.ok) ∧
    (∀ (cfg : WebcamCfg) (w : CaptureWorld) (fs : List String),
      w.readOk = true →
      (capture_and_upload cfg w fs).2.2.countP isS3Upload = 1 ∧
      (capture_and_upload cfg w fs).2.2.countP isSpawnUpload = 0) := by
  constructor
  · intro cfg inp h1 h2 h3
    obtain ⟨hs, mo, pr, ts⟩ := inp
    cases h1; cases h2; cases h3
    refine ⟨?_, ?_, rfl⟩ <;>
      simp [on_new_sample, List.countP_cons, isSpawnUpload, isS3Upload]
  · intro cfg w fs h
    obtain ⟨ro, uo, rm, ts, wt⟩ := w
    cases h
    cases uo <;> cases rm <;>
      simp [capture_and_upload, List.countP_cons, isSpawnUpload, isS3Upload]

/-- Claim C6, witness: both halves at concrete inputs. -/
theorem claim_C6_witness :
    ((on_new_sample kvsCfg0 ⟨true, true, false, "t"⟩).2.countP isSpawnUpload
        = 1 ∧
      (on_new_sample kvsCfg0 ⟨true, true, false, "t"⟩).2.countP isS3Upload
        = 0 ∧
      (on_new_sample kvsCfg0 ⟨true, true, false, "t"⟩).1 = FlowReturn.ok) ∧
    ((capture_and_upload wCfg0
          ⟨true, false, true, "t", 0⟩ []).2.2.countP isS3Upload = 1 ∧
      (capture_and_upload wCfg0
          ⟨true, false, true, "t", 0⟩ []).2.2.countP isSpawnUpload = 0) :=
  ⟨claim_C6_amended.1 kvsCfg0 ⟨true, true, false, "t"⟩ rfl rfl rfl,
   claim_C6_amended.2 wCfg0 ⟨true, false, true, "t", 0⟩ [] rfl⟩

/-! ## Claim C3 -/

/-- Appending a fresh element and erasing it returns the original list. -/
lemma erase_snoc_of_not_mem {a : String} {l : List String} (h : a ∉ l) :
    (l ++ [a]).erase a = l := by
  rw [List.erase_append_right _ h, List.erase_cons_head, List.append_nil]

/-- Claim C3, counterexample. The claim states that in every ingestion
mode a successful durable upload is followed by deletion of the local
file. In watch mode the deletion is guarded by the delete_after_upload
flag (s3-uploader.py line 93), which the keep-files command line option
turns off; below, an upload succeeds (the attempt happens, nothing is
logged as an error) and the local file still exists afterward. -/
theorem claim_C3_counterexample :
    (_upload_file uCfgKeep s3ok ["/tmp/a.jpg"] "/tmp/a.jpg" "t").1
      = ["/tmp/a.jpg"] ∧
    (_upload_file uCfgKeep s3ok ["/tmp/a.jpg"] "/tmp/a.jpg" "t").2.countP
        isS3Upload = 1 ∧
    (_upload_file uCfgKeep s3ok ["/tmp/a.jpg"] "/tmp/a.jpg" "t").2.countP
        isLogError = 0 := by
  decide

/-- Claim C3 as amended: in the managed-stream mode a successful upload
deletes the local file and a failed upload leaves the filesystem
unchanged with exactly one upload attempt and one logged error (the
failure is swallowed, never retried or re-raised); the same holds in
watch mode provided delete_after_upload is enabled (the default); in
device-capture mode a successful upload removes the staged file and a
failed upload leaves it present, again with a single logged attempt. -/
theorem claim_C3_amended :
    (∀ (cfg : KvsCfg) (w : S3World) (fs : List String) (fp ts : String),
      (w.uploadOk = true → w.removeOk = true →
        (upload_to_s3 cfg w fs fp ts).1 = fs.erase fp) ∧
      (w.uploadOk = false →
        (upload_to_s3 cfg w fs fp ts).1 = fs ∧
        (upload_to_s3 cfg w fs fp ts).2.countP isS3Upload = 1 ∧
        (upload_to_s3 cfg w fs fp ts).2.countP isLogError = 1)) ∧
    (∀ (cfg : UploaderCfg) (w : S3World) (fs : List String) (fp ts : String),
      (w.uploadOk = true → w.removeOk = true →
          cfg.delete_after_upload = true →
        (_upload_file cfg w fs fp ts).1 = fs.erase fp) ∧
      (w.uploadOk = false →
        (_upload_file cfg w fs fp ts).1 = fs ∧
        (_upload_file cfg w fs fp ts).2.countP isS3Upload = 1 ∧
        (_upload_file cfg w fs fp ts).2.countP isLogError = 1)) ∧
    (∀ (cfg : WebcamCfg) (w : CaptureWorld) (fs : List String),
      (w.readOk = true → w.uploadOk = true → w.removeOk = true →
        ("/tmp/" ++ (w.ts ++ "." ++ cfg.format)) ∉ fs →
        ("/tmp/" ++ (w.ts ++ "." ++ cfg.format))
          ∉ (capture_and_upload cfg w fs).2.1) ∧
      (w.readOk = true → w.uploadOk = false →
        ("/tmp/" ++ (w.ts ++ "." ++ cfg.format))
          ∈ (capture_and_upload cfg w fs).2.1 ∧
        (capture_and_upload cfg w fs).2.2.countP isS3Upload = 1 ∧
        (capture_and_upload cfg w fs).2.2.countP isLogError = 1)) := by
  refine ⟨?_, ?_, ?_⟩
  · intro cfg w fs fp ts
    obtain ⟨u, r⟩ := w
    constructor
    · intro hu hr; cases hu; cases hr; rfl
    · intro hu; cases hu
      refine ⟨rfl, ?_, ?_⟩ <;>
        simp [upload_to_s3, List.countP_cons, isS3Upload, isLogError]
  · intro cfg w fs fp ts
    obtain ⟨u, r⟩ := w
    constructor
    · intro hu hr hd; cases hu; cases hr
      simp [_upload_file, hd]
    · intro hu; cases hu
      refine ⟨rfl, ?_, ?_⟩ <;>
        simp [_upload_file, List.countP_cons, isS3Upload, isLogError]
  · intro cfg w fs
    obtain ⟨ro, uo, rm, ts, wt⟩ := w
    constructor
    · intro hro huo hrm hmem
      cases hro; cases huo; cases hrm
      simp only [capture_and_upload]
      rw [erase_snoc_of_not_mem hmem]
      exact hmem
    · intro hro huo
      cases hro; cases huo
      refine ⟨?_, ?_, ?_⟩ <;>
        simp [capture_and_upload, List.countP_cons, isS3Upload, isLogError]

/-- Claim C3, witness: a successful managed-stream offload deletes the
staged file, and a failed watch-mode offload leaves it in place with one
attempt and one logged error. -/
theorem claim_C3_witness :
    (upload_to_s3 kvsCfg0 s3ok ["/tmp/f.jpg"] "/tmp/f.jpg" "t").1
      = (["/tmp/f.jpg"] : List String).erase "/tmp/f.jpg" ∧
    ((_upload_file uCfg0 s3fail ["/tmp/f.jpg"] "/tmp/f.jpg" "t").1
        = ["/tmp/f.jpg"] ∧
      (_upload_file uCfg0 s3fail ["/tmp/f.jpg"] "/tmp/f.jpg" "t").2.countP
          isS3Upload = 1 ∧
      (_upload_file uCfg0 s3fail ["/tmp/f.jpg"] "/tmp/f.jpg" "t").2.countP
          isLogError = 1) :=
  ⟨(claim_C3_amended.1 kvsCfg0 s3ok ["/tmp/f.jpg"] "/tmp/f.jpg" "t").1 rfl rfl,
   (claim_C3_amended.2.1 uCfg0 s3fail ["/tmp/f.jpg"] "/tmp/f.jpg" "t").2 rfl⟩

/-! ## Claim C5 -/

/-- Claim C5, counterexample. The claim states that in device-capture
mode each cycle sleeps exactly the maximum of 0 and the interval minus
the work time already spent in the cycle. In test.py (line 135) the loop
sleeps the configured interval unconditionally: below, with interval 1
and cycle work time 2, the claimed sleep is 0 but the loop sleeps 1 (and
never issues a sleep of 0). -/
theorem claim_C5_counterexample :
    Ev.sleepFor 1
      ∈ (run_capture_loop wCfg0 [⟨true, true, true, "t", 2⟩] []).2 ∧
    Ev.sleepFor 0
      ∉ (run_capture_loop wCfg0 [⟨true, true, true, "t", 2⟩] []).2 ∧
    max (0 : ℚ) (1 - 2) = 0 := by
  refine ⟨by decide, by decide, by norm_num⟩

/-- Claim C5 as amended: the test.py device-capture loop always sleeps
exactly the configured interval, independent of the work time spent in
the cycle (so no negative sleep is ever issued, and consecutive captures
are spaced at least one interval apart because the cycle lasts the work
time plus the interval, but an overrunning cycle still sleeps the full
interval instead of proceeding immediately); the webcam-to-kvs streaming
loop sleeps the maximum of 0 and (1/fps minus the time since the start
of the current FPS-measurement window), which is likewise never
negative. -/
theorem claim_C5_amended :
    (∀ (cfg : WebcamCfg) (w : CaptureWorld) (fs : List String) (q : ℚ),
      Ev.sleepFor cfg.interval ∈ (run_capture_loop cfg [w] fs).2 ∧
      (Ev.sleepFor q ∈ (run_capture_loop cfg [w] fs).2 →
        q = cfg.interval)) ∧
    (∀ workT i : ℚ, 0 ≤ workT → i ≤ workT + i) ∧
    (∀ fps now windowStart : ℚ, 0 ≤ streaming_sleep fps now windowStart) := by
  refine ⟨?_, ?_, ?_⟩
  · intro cfg w fs q
    obtain ⟨ro, uo, rm, ts, wt⟩ := w
    cases ro <;> cases uo <;> cases rm <;>
      simp [run_capture_loop, capture_and_upload]
  · intro workT i h
    linarith
  · intro fps now windowStart
    exact le_max_left 0 _

/-- Claim C5, witness: with interval 1 and an overrunning cycle of work
time 2 the loop still emits a sleep of the full interval, and the
streaming sleep is nonnegative at a concrete late-window instant. -/
theorem claim_C5_witness :
    Ev.sleepFor wCfg0.interval
      ∈ (run_capture_loop wCfg0 [⟨true, true, true, "t", 2⟩] []).2 ∧
    (1 : ℚ) ≤ 2 + 1 ∧
    (0 : ℚ) ≤ streaming_sleep 15 100 99 :=
  ⟨(claim_C5_amended.1 wCfg0 ⟨true, true, true, "t", 2⟩ [] 0).1,
   claim_C5_amended.2.1 2 1 (by norm_num),
   claim_C5_amended.2.2 15 100 99⟩

/-! ## Claim C9 -/

/-- Every invocation of the device-capture body performs exactly one
device read, whatever the outcome. -/
lemma capture_one_read (cfg : WebcamCfg) (w : CaptureWorld)
    (fs : List String) :
    (capture_and_upload cfg w fs).2.2.countP isCaptureRead = 1 := by
  obtain ⟨ro, uo, rm, ts, wt⟩ := w
  cases ro <;> cases uo <;> cases rm <;>
    simp [capture_and_upload, List.countP_cons, isCaptureRead]

/-- Claim C9, counterexample. The claim states that a device read failure
is a recoverable per-iteration miss and the capture loop continues. In
webcam-to-kvs.py (lines 90 to 92) a failed read logs an error and breaks
out of the streaming loop: below, of three scheduled iterations whose
first read fails, only one device read ever happens and the loop ends. -/
theorem claim_C9_counterexample :
    (run_streaming_loop [false, true, true]).countP isCaptureRead = 1 ∧
    (run_streaming_loop [false, true, true]).countP isCaptureRead
      ≠ [false, true, true].length := by
  decide

/-- Claim C9 as amended: in the webcam-to-S3 device loop (test.py) a read
failure is a recoverable miss: every scheduled iteration performs its
device read, and a failing iteration logs one error, leaves the
filesystem unchanged, returns False and the loop continues; in the
webcam-to-kvs streaming loop, however, a read failure logs an error and
breaks out of the loop, ending the stream before the remaining
iterations. -/
theorem claim_C9_amended :
    (∀ (cfg : WebcamCfg) (ws : List CaptureWorld) (fs : List String),
      (run_capture_loop cfg ws fs).2.countP isCaptureRead = ws.length) ∧
    (∀ (cfg : WebcamCfg) (w : CaptureWorld) (fs : List String),
      w.readOk = false →
      (capture_and_upload cfg w fs).1 = false ∧
      (capture_and_upload cfg w fs).2.1 = fs ∧
      (capture_and_upload cfg w fs).2.2.countP isLogError = 1) ∧
    (∀ rest : List Bool,
      run_streaming_loop (false :: rest)
        = [Ev.captureRead,
           Ev.logError "Failed to capture frame from webcam"]) := by
  refine ⟨?_, ?_, ?_⟩
  · intro cfg ws
    induction ws with
    | nil => intro fs; simp [run_capture_loop]
    | cons w rest ih =>
      intro fs
      simp [run_capture_loop, List.countP_append, capture_one_read,
        ih, isCaptureRead, List.countP_cons, Nat.add_comm]
  · intro cfg w fs h
    obtain ⟨ro, uo, rm, ts, wt⟩ := w
    cases h
    refine ⟨rfl, rfl, ?_⟩
    simp [capture_and_upload, List.countP_cons, isLogError]
  · intro rest
    rfl

/-- Claim C9, witness: a two-iteration schedule whose first read fails
still performs both reads in the test.py loop, and a concrete failing
iteration logs once and keeps the filesystem. -/
theorem claim_C9_witness :
    (run_capture_loop wCfg0
        [⟨false, true, true, "t", 0⟩, ⟨true, true, true, "t", 0⟩]
        []).2.countP isCaptureRead = 2 ∧
    ((capture_and_upload wCfg0 ⟨false, true, true, "t", 0⟩ []).1 = false ∧
      (capture_and_upload wCfg0 ⟨false, true, true, "t", 0⟩ []).2.1 = [] ∧
      (capture_and_upload wCfg0 ⟨false, true, true, "t", 0⟩ []).2.2.countP
          isLogError = 1) :=
  ⟨claim_C9_amended.1 wCfg0
      [⟨false, true, true, "t", 0⟩, ⟨true, true, true, "t", 0⟩] [],
   claim_C9_amended.2.1 wCfg0 ⟨false, true, true, "t", 0⟩ [] rfl⟩

/-! ## Claim C8 -/

/-- The sweep emits only removeFile and rmdir events: no error logs and
no terminal marker, whether it completes or raises. -/
lemma sweep_trace_flags (w : CleanupWorld) (dir : String) :
    ∀ files : List String,
      (∀ tr, sweep w dir files = Except.ok tr →
        tr.countP isLogError = 0 ∧ tr.countP isTerminated = 0) ∧
      (∀ rem tr, sweep w dir files = Except.error (rem, tr) →
        tr.countP isLogError = 0 ∧ tr.countP isTerminated = 0) := by
  intro files
  induction files with
  | nil =>
    constructor
    · intro tr h
      cases hr : w.rmdirOk <;> simp [sweep, hr] at h
      subst h
      simp [List.countP_cons, isLogError, isTerminated]
    · intro rem tr h
      cases hr : w.rmdirOk <;> simp [sweep, hr] at h
      obtain ⟨h1, h2⟩ := h
      subst h2
      simp
  | cons f rest ih =>
    constructor
    · intro tr h
      cases hf : w.removeOk f <;> simp [sweep, hf] at h
      cases hs : sweep w dir rest with
      | ok tr1 =>
        rw [hs] at h
        simp at h
        subst h
        have := (ih.1 tr1 hs)
        simp [List.countP_cons, isLogError, isTerminated, this.1, this.2]
      | error r1 =>
        rw [hs] at h
        simp at h
    · intro rem tr h
      cases hf : w.removeOk f <;> simp [sweep, hf] at h
      · obtain ⟨h1, h2⟩ := h
        subst h2
        simp
      · cases hs : sweep w dir rest with
        | ok tr1 =>
          rw [hs] at h
          simp at h
        | error r1 =>
          rw [hs] at h
          simp at h
          have := ih.2 r1.1 r1.2 (by rw [hs])
          rw [← h.2]
          simp [List.countP_cons, isLogError, isTerminated, this.1, this.2]

/-- When every removal and the rmdir succeed, the sweep completes. -/
lemma sweep_isOk (w : CleanupWorld) (dir : String) :
    ∀ files : List String, files.all w.removeOk = true →
      w.rmdirOk = true → ∃ tr, sweep w dir files = Except.ok tr := by
  intro files
  induction files with
  | nil =>
    intro _ hr
    exact ⟨[.rmdirEv dir], by simp [sweep, hr]⟩
  | cons f rest ih =>
    intro ha hr
    simp only [List.all_cons, Bool.and_eq_true] at ha
    obtain ⟨tr1, htr1⟩ := ih ha.2 hr
    exact ⟨.removeFile f :: tr1, by simp [sweep, ha.1, htr1]⟩

/-- Claim C8: the shutdown sweep best-effort deletes the listed files and
then the scratch directory: when no operation fails, every file and the
directory are removed; when the sweep raises, the exception is caught,
exactly one error is logged, and cleanup still returns normally with the
partial state; and the shutdown path reaches the terminal state exactly
once. -/
theorem claim_C8_theorem :
    ∀ (w : CleanupWorld) (dir : String) (files : List String),
      (files.all w.removeOk = true → w.rmdirOk = true →
        (cleanup w dir files).1 = [] ∧ (cleanup w dir files).2.1 = true) ∧
      (∀ rem tr, sweep w dir files = Except.error (rem, tr) →
        (cleanup w dir files).1 = rem ∧
        (cleanup w dir files).2.1 = false ∧
        (cleanup w dir files).2.2.countP isLogError = 1) ∧
      (shutdown w dir files).countP isTerminated = 1 := by
  intro w dir files
  refine ⟨?_, ?_, ?_⟩
  · intro ha hr
    obtain ⟨tr, htr⟩ := sweep_isOk w dir files ha hr
    simp [cleanup, htr]
  · intro rem tr h
    have hfl := (sweep_trace_flags w dir files).2 rem tr h
    simp [cleanup, h, List.countP_append, List.countP_cons, isLogError,
      hfl.1]
  · unfold shutdown
    rw [List.countP_append]
    cases hs : sweep w dir files with
    | ok tr =>
      have hfl := (sweep_trace_flags w dir files).1 tr hs
      simp [cleanup, hs, List.countP_cons, isTerminated, hfl.2]
    | error r =>
      have hfl := (sweep_trace_flags w dir files).2 r.1 r.2 (by rw [hs])
      simp [cleanup, hs, List.countP_append, List.countP_cons, isTerminated,
        hfl.2]

/-- Claim C8, witness: a fully successful sweep removes both files and
the directory; a failing removal is logged once and cleanup still
returns; the terminal state is reached exactly once. -/
theorem claim_C8_witness :
    ((cleanup ⟨fun _ => true, true⟩ "/tmp/kvs_images_0" ["a", "b"]).1 = []
        ∧ (cleanup ⟨fun _ => true, true⟩ "/tmp/kvs_images_0"
            ["a", "b"]).2.1 = true) ∧
    ((cleanup ⟨fun _ => false, true⟩ "/tmp/kvs_images_0" ["a"]).1 = ["a"] ∧
      (cleanup ⟨fun _ => false, true⟩ "/tmp/kvs_images_0" ["a"]).2.1
        = false ∧
      (cleanup ⟨fun _ => false, true⟩ "/tmp/kvs_images_0"
          ["a"]).2.2.countP isLogError = 1) ∧
    (shutdown ⟨fun _ => true, true⟩ "/tmp/kvs_images_0"
        ["a", "b"]).countP isTerminated = 1 :=
  ⟨(claim_C8_theorem ⟨fun _ => true, true⟩ "/tmp/kvs_images_0"
      ["a", "b"]).1 rfl rfl,
   (claim_C8_theorem ⟨fun _ => false, true⟩ "/tmp/kvs_images_0"
      ["a"]).2.1 ["a"] [] rfl,
   (claim_C8_theorem ⟨fun _ => true, true⟩ "/tmp/kvs_images_0"
      ["a", "b"]).2.2⟩

/-! ## Claim C1 -/

/-- One on_created step keeps the dedup collection within the 1000 bound,
for every set-iteration order that permutes the contents. -/
lemma on_created_length (pi : List String → List String)
    (hpi : ∀ l : List String, (pi l).Perm l)
    (cfg : UploaderCfg) (w : S3World) (processed fs : List String)
    (ev : WatchEvent) (ts : String)
    (h : processed.length ≤ 1000) :
    (on_created pi cfg w processed fs ev ts).1.length ≤ 1000 := by
  by_cases hd : ev.is_directory = true
  · simpa [on_created, hd] using h
  by_cases him : _is_image_file ev.src_path = false
  · simpa [on_created, hd, him] using h
  by_cases hmem : ev.src_path ∈ processed
  · simpa [on_created, hd, him, hmem] using h
  by_cases hlen : (processed ++ [ev.src_path]).length > 1000
  · have hp := (hpi (processed ++ [ev.src_path])).length_eq
    rw [List.length_append, List.length_singleton] at hp hlen
    simp [on_created, hd, him, hmem, hlen, List.length_drop]
    omega
  · rw [List.length_append, List.length_singleton] at hlen
    simp [on_created, hd, him, hmem, hlen]
    omega

/-- The fold of on_created over any event sequence keeps the dedup
collection within the 1000 bound. -/
lemma runWatch_length (pi : List String → List String)
    (hpi : ∀ l : List String, (pi l).Perm l)
    (cfg : UploaderCfg) (w : S3World) (ts : String) :
    ∀ (events : List WatchEvent) (st : List String × List String),
      st.1.length ≤ 1000 →
      (runWatch pi cfg w ts events st).1.length ≤ 1000 := by
  intro events
  induction events with
  | nil => intro st h; simpa [runWatch] using h
  | cons e es ih =>
    intro st h
    simp only [runWatch]
    exact ih _ (on_created_length pi hpi cfg w st.1 st.2 e ts h)

/-- Claim C1 as amended: for every admissible set-iteration order (any
order-producing function that permutes the contents), the dedup
collection holds at most 1000 entries after every event, and an eviction
(triggered by inserting a fresh path into a full collection of 1000)
leaves exactly 500 entries, all of them drawn from the prior contents
plus the new path, with no duplicates introduced; which 500 survive
depends on the unspecified iteration order of the Python set, not on
insertion recency. -/
theorem claim_C1_amended (pi : List String → List String)
    (hpi : ∀ l : List String, (pi l).Perm l) :
    (∀ (cfg : UploaderCfg) (w : S3World) (ts : String)
        (events : List WatchEvent) (st : List String × List String),
      st.1.length ≤ 1000 →
      (runWatch pi cfg w ts events st).1.length ≤ 1000) ∧
    (∀ (cfg : UploaderCfg) (w : S3World) (ts : String)
        (processed fs : List String) (ev : WatchEvent),
      ev.is_directory = false → _is_image_file ev.src_path = true →
      ev.src_path ∉ processed → processed.length = 1000 →
      (on_created pi cfg w processed fs ev ts).1.length = 500 ∧
      (∀ q ∈ (on_created pi cfg w processed fs ev ts).1,
        q ∈ processed ++ [ev.src_path]) ∧
      (processed.Nodup → (on_created pi cfg w processed fs ev ts).1.Nodup)) := by
  constructor
  · intro cfg w ts events st h
    exact runWatch_length pi hpi cfg w ts events st h
  · intro cfg w ts processed fs ev hdir him hmem hlen
    have hp := (hpi (processed ++ [ev.src_path])).length_eq
    rw [List.length_append, List.length_singleton, hlen] at hp
    have hstep : (on_created pi cfg w processed fs ev ts).1
        = (pi (processed ++ [ev.src_path])).drop
            ((pi (processed ++ [ev.src_path])).length - 500) := by
      simp [on_created, hdir, him, hmem, hlen]
    refine ⟨?_, ?_, ?_⟩
    · rw [hstep, List.length_drop, hp]
    · intro q hq
      rw [hstep] at hq
      exact (hpi (processed ++ [ev.src_path])).subset
        ((List.drop_sublist _ _).subset hq)
    · intro hnd
      have hnd1 : (processed ++ [ev.src_path]).Nodup := by
        simp [List.nodup_append, hnd, hmem]
      rw [hstep]
      exact (List.drop_sublist _ _).nodup
        ((hpi (processed ++ [ev.src_path])).nodup_iff.mpr hnd1)

set_option maxRecDepth 16000 in
/-- Claim C1, witness: the identity iteration order, one event from the
empty state, and an eviction step from a full collection. -/
theorem claim_C1_witness :
    (runWatch id uCfg0 s3ok "t" [⟨"/tmp/a.jpg", false⟩] ([], [])).1.length
      ≤ 1000 ∧
    (on_created id uCfg0 s3ok (List.replicate 1000 "/tmp/a.jpg") []
        ⟨"/tmp/b.jpg", false⟩ "t").1.length = 500 :=
  ⟨(claim_C1_amended id (fun l => List.Perm.refl l)).1 uCfg0 s3ok "t"
      [⟨"/tmp/a.jpg", false⟩] ([], []) (by decide),
   ((claim_C1_amended id (fun l => List.Perm.refl l)).2 uCfg0 s3ok "t"
      (List.replicate 1000 "/tmp/a.jpg") [] ⟨"/tmp/b.jpg", false⟩ rfl
      (by decide)
      (by decide)
      (by decide)).1⟩

/-- Path number i of the counterexample run: the letter p, the decimal
index, and the jpg extension. -/
def pathOf (i : Nat) : String := "p" ++ toString i ++ ".jpg"

/-- One thousand distinct image paths, in insertion order. -/
def prePaths : List String := (List.range 1000).map pathOf

set_option maxRecDepth 16000 in
set_option maxHeartbeats 2000000 in
/-- Claim C1, counterexample. The claim states that immediately after an
eviction the retained entries are exactly the 500 most recently inserted
paths (insertion order). The source keeps processed_files in a Python
set, which is not insertion-ordered: the eviction keeps the last 500
entries of whatever order the set iterates in. Below, under the
admissible iteration order that reverses the insertion order (any
permutation is admissible, since Python specifies none), inserting path
1000 into a full collection of paths 0 to 999 retains the oldest path
(number 0), which is not among the 500 most recently inserted. -/
theorem claim_C1_counterexample :
    pathOf 0
      ∈ (on_created List.reverse uCfg0 s3ok prePaths []
          ⟨pathOf 1000, false⟩ "t").1 ∧
    pathOf 0 ∉ (prePaths ++ [pathOf 1000]).drop 501 := by
  decide
